import Mathlib

/-!
Shallow embedding of the closure-code recommender of the `cmdb` repository:
the corpus builder `build_and_save_similarity_model`
(gestion/ml/incident_classifier.py), the serving view
`recommend_closure_code_view` and the retraining view
`reentrenar_modelo_view` (gestion/views/recommendations.py).

Modelling conventions:
* Database rows (`CodigoCierre`, `Incidencia`) are plain records; querysets
  are Lean lists.
* TF-IDF numerics: the fitted `TfidfVectorizer` is abstracted as a function
  `String → List ℚ` (its `transform` on one document); `fit_transform` over a
  corpus is the row-wise application of the fitted transform, which is exactly
  what scikit-learn computes.  Since `TfidfVectorizer` L2-normalises every
  output vector (its default `norm='l2'`; an all-zero vector is left zero),
  `sklearn.metrics.pairwise.cosine_similarity` applied to these outputs is
  the plain dot product, which is how we embed it.
* JSON request bodies: `none` stands for a body that fails `json.loads`;
  a missing `description` key defaults to `""` as in the source
  (`data.get('description', '')`).  `application_id` is `Option ℤ`:
  `none` models an absent/`null` value and `some 0` a supplied falsy value
  (Python's `if application_id` treats `None`, `0` and `""` alike).
* The process-global `SIMILARITY_MODEL_DATA` is threaded explicitly: each
  view takes the current in-memory state and returns the new state together
  with the HTTP response; `load_model()`'s result is the `disk` argument
  (`none` when the artifact file is absent or unreadable).
-/

/-- A `CodigoCierre` row: primary key, code, description, cause and the
optional owning application's id (`aplicacion_id`). -/
structure CodigoCierre where
  id : Nat
  cod_cierre : String
  desc_cod_cierre : String
  causa_cierre : String
  aplicacion : Option Nat
deriving DecidableEq, Repr

/-- An `Incidencia` row: the four free-text fields used for training (each
nullable), the opening timestamp and the closure-code foreign key. -/
structure Incidencia where
  descripcion_incidencia : Option String
  causa : Option String
  solucion_final : Option String
  observaciones : Option String
  fecha_apertura : Nat
  codigo_cierre : Nat
deriving DecidableEq, Repr

/-- Python's `str.lower()`: lowercase every character. -/
def pythonLower (s : String) : String :=
  String.mk (s.data.map Char.toLower)

/-- Python's `str.strip()`: drop whitespace from both ends. -/
def pythonStrip (s : String) : String :=
  String.mk
    (((s.data.dropWhile Char.isWhitespace).reverse.dropWhile
        Char.isWhitespace).reverse)

/-- `normalizar_texto` (incident_classifier.py): empty/falsy text maps to
`""`, otherwise lowercase then strip. -/
def normalizar_texto (texto : String) : String :=
  if texto = "" then "" else pythonStrip (pythonLower texto)

/-- The persisted model artifact: the fitted vectorizer's `transform`
(abstract), the document-term matrix, the parallel closure-code id sequence
and the id→application-id-list map (a dict embedded as an association list;
`code_to_app_map = []` also covers an artifact missing the key, since
`data.get('code_to_app_map', {})` and an empty dict are equally falsy). -/
structure ModelData where
  transform : String → List ℚ
  tfidf_matrix : List (List ℚ)
  code_ids : List Nat
  code_to_app_map : List (Nat × List ℤ)

/-- `code_to_app_map.get(code_id, [])`. -/
def appListOf (m : ModelData) (code_id : Nat) : List ℤ :=
  ((m.code_to_app_map.find? fun q => q.1 == code_id).map Prod.snd).getD []

/-- Dot product of two (sparse) row vectors; `zipWith` matches numpy's
elementwise product over equal-length vectors. -/
def dotProduct (x y : List ℚ) : ℚ :=
  (List.zipWith (fun a b => a * b) x y).sum

/-- `cosine_similarity(query, matrix).flatten()`: one score per matrix row.
Both the stored rows and the transformed query are already L2-normalised (or
zero) TF-IDF outputs, so the cosine reduces to the dot product. -/
def cosineSimilarities (query : List ℚ) (matrix : List (List ℚ)) : List ℚ :=
  matrix.map (dotProduct query)

/-- `numpy.argsort`: the indices of the score list, sorted so that the scores
they point at are ascending (a stable sort; numpy leaves the order of equal
scores unspecified, and the original design leaves the tie-break
unspecified, so the stable policy is the documented choice). -/
def argsortAsc (xs : List ℚ) : List Nat :=
  (List.range xs.length).insertionSort fun i j => xs.getD i 0 ≤ xs.getD j 0

/-- Lines 142–146 of recommendations.py: `top_k = min(3, len(sims))`;
`sims.argsort()[-top_k:][::-1]` = drop all but the last `top_k` ascending
positions, then reverse, giving the query-local indices of the best rows,
best first. -/
def topIndices (sims : List ℚ) : List Nat :=
  let top_k := min 3 sims.length
  ((argsortAsc sims).drop (sims.length - top_k)).reverse

/-- Lines 109–124 of recommendations.py: the candidate `(matrix row index,
code id)` pairs.  Filtering happens only when `application_id` is truthy AND
the map is a non-empty dict; a row survives when its app list is empty or
contains `int(application_id)`. -/
def candidatePairs (m : ModelData) (application_id : Option ℤ) :
    List (Nat × Nat) :=
  match application_id with
  | none => m.code_ids.enum
  | some a =>
      if a ≠ 0 ∧ m.code_to_app_map ≠ [] then
        m.code_ids.enum.filter fun p =>
          decide (appListOf m p.2 = [] ∨ a ∈ appListOf m p.2)
      else m.code_ids.enum

/-- Lines 129–137: select the candidate rows of the matrix and score them
against the vectorized, normalised description. -/
def simScores (m : ModelData) (application_id : Option ℤ)
    (description : String) : List ℚ :=
  let pairs := candidatePairs m application_id
  let filtered_tfidf_matrix := pairs.map fun p => m.tfidf_matrix.getD p.1 []
  cosineSimilarities (m.transform (normalizar_texto description))
    filtered_tfidf_matrix

/-- The similarity threshold `SIMILARITY_THRESHOLD = 0.20`. -/
def SIMILARITY_THRESHOLD : ℚ := 1 / 5

/-- One entry of the `sugerencias` array of a successful response (the
percentage string `confianza` is a pure rendering of `raw_score` and is
omitted). -/
structure Sugerencia where
  id : Nat
  codigo_cierre : String
  descripcion : String
  raw_score : ℚ
  accion_recomendada : String
  mensaje : String
deriving DecidableEq, Repr

/-- The possible JSON responses of `recommend_closure_code_view`. -/
inductive RecommendResult where
  /-- 503: `El servicio de recomendación no está disponible.` -/
  | serviceUnavailable
  /-- 400: request body is not valid JSON. -/
  | badJson
  /-- 400: `La descripción no puede estar vacía.` -/
  | emptyDescription
  /-- 404: `No hay códigos de cierre para la aplicación seleccionada.` -/
  | noCandidates
  /-- 500: `Error al calcular la similitud.` (empty score array). -/
  | simError
  /-- 200: `{'status': 'success', 'sugerencias': ...}`. -/
  | success (sugerencias : List Sugerencia)
deriving DecidableEq, Repr

/-- The request body once `json.loads` succeeded. -/
structure Request where
  description : String
  application_id : Option ℤ
deriving DecidableEq, Repr

/-- Lines 150–175: build one response item for a selected local index,
or skip it (`None`) when `CodigoCierre.objects.get` raises `DoesNotExist`. -/
def sugerenciaFor (catalog : List CodigoCierre) (sims : List ℚ)
    (ids : List Nat) (idx : Nat) : Option Sugerencia :=
  let score := sims.getD idx 0
  let predicted_code_id := ids.getD idx 0
  match catalog.find? fun c => c.id == predicted_code_id with
  | none => none
  | some c =>
      some { id := c.id
             codigo_cierre := c.cod_cierre
             descripcion := c.desc_cod_cierre
             raw_score := score
             accion_recomendada :=
               if SIMILARITY_THRESHOLD ≤ score then "use_suggestion"
               else "review"
             mensaje :=
               if SIMILARITY_THRESHOLD ≤ score then "Alta coincidencia"
               else "Coincidencia baja" }

/-- `recommend_closure_code_view` (recommendations.py, lines 71–183).
`st` is the global `SIMILARITY_MODEL_DATA`, `disk` what `load_model()`
would return, `catalog` the current `CodigoCierre` table, `body` the parsed
request (`none` = malformed JSON).  Returns the new global state and the
response. -/
def recommend_closure_code_view (st disk : Option ModelData)
    (catalog : List CodigoCierre) (body : Option Request) :
    Option ModelData × RecommendResult :=
  -- lines 76–81: lazy reload of the global when it is falsy
  let st1 := match st with
    | some m => some m
    | none => disk
  match st1 with
  | none => (none, RecommendResult.serviceUnavailable)
  | some m =>
      (st1,
        match body with
        | none => RecommendResult.badJson
        | some req =>
            -- line 100: `if not description`
            if req.description = "" then RecommendResult.emptyDescription
            else
              let pairs := candidatePairs m req.application_id
              let code_ids_to_search := pairs.map Prod.snd
              -- line 126: `if not code_ids_to_search`
              if code_ids_to_search = [] then RecommendResult.noCandidates
              else
                let sims := simScores m req.application_id req.description
                -- line 139: `if cosine_similarities.size == 0`
                if sims = [] then RecommendResult.simError
                else
                  RecommendResult.success
                    ((topIndices sims).filterMap
                      (sugerenciaFor catalog sims code_ids_to_search)))

/-- Extract the `sugerencias` of a successful response (else `[]`). -/
def resultList : RecommendResult → List Sugerencia
  | RecommendResult.success l => l
  | _ => []

-- ## Corpus builder (gestion/ml/incident_classifier.py)

/-- `texto_base` of line 45: the code's own description and cause. -/
def textoBase (c : CodigoCierre) : String :=
  c.desc_cod_cierre ++ " " ++ c.causa_cierre

/-- Line 49: `Incidencia.objects.filter(codigo_cierre=c)
.order_by('-fecha_apertura')[:50]`. -/
def incidenciasDe (incidents : List Incidencia) (c : CodigoCierre) :
    List Incidencia :=
  ((incidents.filter fun i => i.codigo_cierre == c.id).insertionSort
    fun a b => b.fecha_apertura ≤ a.fecha_apertura).take 50

/-- Lines 51–54: `texto_historial`, the space-joined free text of the
selected incidents, each `None` field replaced by `''`. -/
def textoHistorial (incidents : List Incidencia) (c : CodigoCierre) : String :=
  String.intercalate " "
    ((incidenciasDe incidents c).map fun inc =>
      inc.descripcion_incidencia.getD "" ++ " " ++ inc.causa.getD "" ++ " " ++
        inc.solucion_final.getD "" ++ " " ++ inc.observaciones.getD "")

/-- Line 57: `texto_completo`, the normalised training document of one
closure code. -/
def corpusEntry (incidents : List Incidencia) (c : CodigoCierre) : String :=
  normalizar_texto (textoBase c ++ " " ++ textoHistorial incidents c)

/-- `build_and_save_similarity_model` (lines 23–79), parametrised by the
abstract vectorizer fit (`fit corpus` is the fitted `transform`, so
`fit_transform(corpus)` is `corpus.map (fit corpus)`).  Returns the artifact
written to disk (`none` = nothing written, the early `return` of line 34)
and whether the empty-catalog warning was logged. -/
def build_and_save_similarity_model (catalog : List CodigoCierre)
    (incidents : List Incidencia)
    (fit : List String → (String → List ℚ)) : Option ModelData × Bool :=
  if catalog = [] then (none, true)
  else
    let corpus := catalog.map (corpusEntry incidents)
    let code_ids := catalog.map CodigoCierre.id
    let code_to_app_map := catalog.map fun c =>
      (c.id, match c.aplicacion with
             | some a => [(a : ℤ)]
             | none => [])
    let vectorizer := fit corpus
    let tfidf_matrix := corpus.map vectorizer
    (some { transform := vectorizer
            tfidf_matrix := tfidf_matrix
            code_ids := code_ids
            code_to_app_map := code_to_app_map }, false)

/-- Effect of a build on the artifact file: `joblib.dump` replaces the file
only when the builder actually produced an artifact; otherwise the prior
file (if any) is untouched. -/
def diskAfterBuild (prior : Option ModelData) (written : Option ModelData) :
    Option ModelData :=
  match written with
  | some m => some m
  | none => prior

-- ## Retraining view (recommendations.py, lines 49–68)

/-- The JSON responses of `reentrenar_modelo_view`. -/
inductive ReloadResponse where
  /-- 405: `Método no permitido.` -/
  | methodNotAllowed
  /-- 200: `Modelo re-entrenado y recargado exitosamente.` -/
  | success
  /-- 500: `Error al re-entrenar el modelo: ...`. -/
  | error (msg : String)
deriving DecidableEq, Repr

/-- `reentrenar_modelo_view`: `st` is the global `SIMILARITY_MODEL_DATA`,
`buildStep` the outcome of `build_and_save_similarity_model()` (`Except.error`
= it raised), `diskAfter` what `load_model()` returns after the build.  Only
on a successful build does the global get reassigned (from disk); an
exception is caught and answered with a 500, leaving the global untouched. -/
def reentrenar_modelo_view (isPost : Bool) (st : Option ModelData)
    (buildStep : Except String Unit) (diskAfter : Option ModelData) :
    Option ModelData × ReloadResponse :=
  if isPost = false then (st, ReloadResponse.methodNotAllowed)
  else
    match buildStep with
    | Except.error e =>
        (st, ReloadResponse.error ("Error al re-entrenar el modelo: " ++ e))
    | Except.ok _ => (diskAfter, ReloadResponse.success)

-- ## Helper lemmas

theorem length_simScores (m : ModelData) (aid : Option ℤ) (desc : String) :
    (simScores m aid desc).length = (candidatePairs m aid).length := by
  simp [simScores, cosineSimilarities]

theorem simScores_ne_nil (m : ModelData) (aid : Option ℤ) (desc : String)
    (hp : candidatePairs m aid ≠ []) : simScores m aid desc ≠ [] := by
  intro h
  apply hp
  have := length_simScores m aid desc
  rw [h] at this
  exact List.length_eq_zero.mp this.symm

theorem recommend_run (m : ModelData) (disk : Option ModelData)
    (catalog : List CodigoCierre) (req : Request)
    (hd : req.description ≠ "")
    (hp : candidatePairs m req.application_id ≠ []) :
    recommend_closure_code_view (some m) disk catalog (some req) =
      (some m, RecommendResult.success
        ((topIndices (simScores m req.application_id req.description)).filterMap
          (sugerenciaFor catalog
            (simScores m req.application_id req.description)
            ((candidatePairs m req.application_id).map Prod.snd)))) := by
  have hids : (candidatePairs m req.application_id).map Prod.snd ≠ [] := by
    simpa using hp
  have hsims := simScores_ne_nil m req.application_id req.description hp
  simp only [recommend_closure_code_view]
  rw [if_neg hd, if_neg hids, if_neg hsims]

theorem topIndices_lt (sims : List ℚ) :
    ∀ idx ∈ topIndices sims, idx < sims.length := by
  intro idx h
  simp only [topIndices] at h
  rw [List.mem_reverse] at h
  have h2 := List.mem_of_mem_drop h
  simp only [argsortAsc, List.mem_insertionSort] at h2
  exact List.mem_range.mp h2

theorem length_topIndices (sims : List ℚ) :
    (topIndices sims).length = min 3 sims.length := by
  simp only [topIndices, argsortAsc, List.length_reverse, List.length_drop,
    List.length_insertionSort, List.length_range]
  omega

theorem candidatePairs_snd_mem (m : ModelData) (aid : Option ℤ) {x : Nat}
    (hx : x ∈ (candidatePairs m aid).map Prod.snd) : x ∈ m.code_ids := by
  rcases List.mem_map.mp hx with ⟨p, hp, hpx⟩
  have hpe : p ∈ m.code_ids.enum := by
    rcases aid with _ | a
    · simpa [candidatePairs] using hp
    · simp only [candidatePairs] at hp
      split at hp
      · exact (List.mem_filter.mp hp).1
      · exact hp
  have := List.mem_enum_iff_getElem?.mp hpe
  subst hpx
  exact List.getElem?_mem this

theorem candidatePairs_scoped (m : ModelData) {a : ℤ} (ha : a ≠ 0) {p : Nat × Nat}
    (hp : p ∈ candidatePairs m (some a)) :
    appListOf m p.2 = [] ∨ a ∈ appListOf m p.2 := by
  by_cases hmap : m.code_to_app_map = []
  · left
    simp [appListOf, hmap]
  · have : candidatePairs m (some a) =
        m.code_ids.enum.filter fun q =>
          decide (appListOf m q.2 = [] ∨ a ∈ appListOf m q.2) := by
    -- filter branch is taken
      simp [candidatePairs, ha, hmap]
    rw [this] at hp
    have := (List.mem_filter.mp hp).2
    exact of_decide_eq_true this

/-- Full characterization of a member of the response list. -/
theorem mem_sugerencias {catalog : List CodigoCierre} {sims : List ℚ}
    {ids : List Nat} {top : List Nat} {s : Sugerencia}
    (hs : s ∈ top.filterMap (sugerenciaFor catalog sims ids)) :
    ∃ idx ∈ top, ∃ c ∈ catalog, c.id = ids.getD idx 0 ∧
      s = { id := c.id
            codigo_cierre := c.cod_cierre
            descripcion := c.desc_cod_cierre
            raw_score := sims.getD idx 0
            accion_recomendada :=
              if SIMILARITY_THRESHOLD ≤ sims.getD idx 0 then "use_suggestion"
              else "review"
            mensaje :=
              if SIMILARITY_THRESHOLD ≤ sims.getD idx 0 then "Alta coincidencia"
              else "Coincidencia baja" } := by
  rcases List.mem_filterMap.mp hs with ⟨idx, hin, hf⟩
  refine ⟨idx, hin, ?_⟩
  simp only [sugerenciaFor] at hf
  split at hf
  · exact absurd hf (by simp)
  · next c heq =>
    refine ⟨c, List.mem_of_find?_eq_some heq, ?_, ?_⟩
    · have := List.find?_some heq
      exact beq_iff_eq.mp this
    · exact (Option.some.injEq _ _ ▸ hf).symm

theorem dotProduct_zero {q : List ℚ} (hq : ∀ x ∈ q, x = 0) (v : List ℚ) :
    dotProduct q v = 0 := by
  induction q generalizing v with
  | nil => simp [dotProduct]
  | cons x xs ih =>
    cases v with
    | nil => simp [dotProduct]
    | cons y ys =>
      have hx : x = 0 := hq x (List.mem_cons_self x xs)
      have hxs : ∀ z ∈ xs, z = 0 := fun z hz => hq z (List.mem_cons_of_mem x hz)
      have := ih hxs ys
      simp only [dotProduct, List.zipWith_cons_cons, List.sum_cons] at *
      rw [hx, this]
      ring

/-- When every selected index resolves in the catalog, nothing is skipped. -/
theorem length_filterMap_of_isSome {α β : Type} {f : α → Option β} {l : List α}
    (h : ∀ x ∈ l, (f x).isSome) : (l.filterMap f).length = l.length := by
  induction l with
  | nil => rfl
  | cons x xs ih =>
    rcases Option.isSome_iff_exists.mp (h x (List.mem_cons_self x xs)) with ⟨b, hb⟩
    rw [List.filterMap_cons_some hb]
    simp only [List.length_cons]
    rw [ih fun z hz => h z (List.mem_cons_of_mem x hz)]

theorem ids_getD_mem (m : ModelData) (aid : Option ℤ) {idx : Nat}
    (h : idx < ((candidatePairs m aid).map Prod.snd).length) :
    ((candidatePairs m aid).map Prod.snd).getD idx 0 ∈ m.code_ids := by
  apply candidatePairs_snd_mem m aid
  rw [List.getD_eq_getElem?_getD, List.getElem?_eq_getElem h]
  exact List.getElem_mem h

-- ## Claims

/-- C3: `build_and_save_similarity_model` on an empty catalog aborts without
writing an artifact, logs the warning that reports the condition, and leaves
the prior artifact (if any) untouched. -/
theorem c3_build_empty_catalog_aborts :
    ∀ (incidents : List Incidencia) (fit : List String → (String → List ℚ))
      (prior : Option ModelData),
      (build_and_save_similarity_model [] incidents fit).1 = none ∧
      (build_and_save_similarity_model [] incidents fit).2 = true ∧
      diskAfterBuild prior (build_and_save_similarity_model [] incidents fit).1 =
        prior := by
  intro incidents fit prior
  refine ⟨rfl, rfl, rfl⟩

/-- C4: when the training step of a reload raises, `reentrenar_modelo_view`
answers with a structured 500 (it does not crash), the global model reference
is unchanged, and subsequent recommend queries behave exactly as before the
failed reload. -/
theorem c4_failed_reload_keeps_model :
    ∀ (st : Option ModelData) (e : String) (diskAfter : Option ModelData),
      reentrenar_modelo_view true st (Except.error e) diskAfter =
        (st, ReloadResponse.error ("Error al re-entrenar el modelo: " ++ e)) ∧
      ∀ (disk2 : Option ModelData) (catalog : List CodigoCierre)
        (body : Option Request),
        recommend_closure_code_view
            (reentrenar_modelo_view true st (Except.error e) diskAfter).1
            disk2 catalog body =
          recommend_closure_code_view st disk2 catalog body := by
  intro st e diskAfter
  exact ⟨rfl, fun _ _ _ => rfl⟩

/-- C7: with no model in memory and no loadable artifact, every call returns
the structured `ServiceUnavailable` response and the state stays unloaded, so
the same holds for every subsequent call; the single lazy load attempt is
visible in that a loadable artifact would be installed (second conjunct). -/
theorem c7_unavailable_until_load :
    (∀ (catalog : List CodigoCierre) (body : Option Request),
      recommend_closure_code_view none none catalog body =
        (none, RecommendResult.serviceUnavailable)) ∧
    ∀ (m : ModelData) (catalog : List CodigoCierre) (body : Option Request),
      (recommend_closure_code_view none (some m) catalog body).1 = some m := by
  exact ⟨fun _ _ => rfl, fun _ _ _ => rfl⟩

/-- C10: a falsy supplied `application_id` (0) or an empty/absent
code-to-application map disables the scope filter entirely: every matrix row
is a candidate. -/
theorem c10_falsy_or_empty_map_unfiltered :
    ∀ (m : ModelData) (a : ℤ),
      a = 0 ∨ m.code_to_app_map = [] →
      candidatePairs m (some a) = m.code_ids.enum := by
  intro m a h
  rcases h with h | h <;> simp [candidatePairs, h]

/-- Concrete artifact for the C10 witness: one code scoped to application 7. -/
def modelC10 : ModelData :=
  { transform := fun _ => [1]
    tfidf_matrix := [[1]]
    code_ids := [5]
    code_to_app_map := [(5, [7])] }

theorem c10_witness :
    candidatePairs modelC10 (some 0) = modelC10.code_ids.enum :=
  c10_falsy_or_empty_map_unfiltered modelC10 0 (Or.inl rfl)

/-- Concrete artifact and catalog for the C2 counterexample. -/
def modelC2 : ModelData :=
  { transform := fun _ => [0]
    tfidf_matrix := [[1]]
    code_ids := [5]
    code_to_app_map := [] }

def catalogC2 : List CodigoCierre :=
  [{ id := 5, cod_cierre := "COD", desc_cod_cierre := "D", causa_cierre := "C",
     aplicacion := none }]

unseal Rat.mul Rat.add Rat.inv in
/-- C2 counterexample: the description `" "` is empty after trimming, yet the
view does not reject it — it runs the full model computation and returns a
success response, because line 100 tests the raw, untrimmed string. -/
theorem c2_counterexample :
    normalizar_texto " " = "" ∧
    (recommend_closure_code_view (some modelC2) none catalogC2
        (some { description := " ", application_id := none })).2 =
      RecommendResult.success
        [{ id := 5, codigo_cierre := "COD", descripcion := "D", raw_score := 0,
           accion_recomendada := "review", mensaje := "Coincidencia baja" }] := by
  exact ⟨by decide, by decide⟩

/-- C2 amended: a request whose description is the empty string (rather than
merely empty after trimming) is rejected with `InvalidInput` before any model
computation, with the in-memory state untouched. -/
theorem c2_amended_empty_description_rejected :
    ∀ (m : ModelData) (disk : Option ModelData) (catalog : List CodigoCierre)
      (aid : Option ℤ),
      recommend_closure_code_view (some m) disk catalog
          (some { description := "", application_id := aid }) =
        (some m, RecommendResult.emptyDescription) := by
  intro m disk catalog aid
  rfl

/-- Concrete artifact and catalog for the C1 counterexample: code 5 is scoped
to application 7 only. -/
def modelC1 : ModelData :=
  { transform := fun _ => [1]
    tfidf_matrix := [[1]]
    code_ids := [5]
    code_to_app_map := [(5, [7])] }

def catalogC1 : List CodigoCierre :=
  [{ id := 5, cod_cierre := "COD", desc_cod_cierre := "D", causa_cierre := "C",
     aplicacion := some 7 }]

unseal Rat.mul Rat.add Rat.inv in
/-- C1 counterexample: the request supplies `application_id = 0`; code 5's
app-id-set is `[7]`, which is non-empty and does not contain 0, yet code 5
appears in the results — the view skips filtering for any falsy
`application_id`. -/
theorem c1_counterexample :
    appListOf modelC1 5 = [7] ∧ ¬ ((0 : ℤ) ∈ appListOf modelC1 5) ∧
    (recommend_closure_code_view (some modelC1) none catalogC1
        (some { description := "x", application_id := some 0 })).2 =
      RecommendResult.success
        [{ id := 5, codigo_cierre := "COD", descripcion := "D", raw_score := 1,
           accion_recomendada := "use_suggestion",
           mensaje := "Alta coincidencia" }] := by
  refine ⟨by decide, by decide, by decide⟩

theorem recommend_empty_desc (m : ModelData) (disk : Option ModelData)
    (catalog : List CodigoCierre) (req : Request)
    (hd : req.description = "") :
    recommend_closure_code_view (some m) disk catalog (some req) =
      (some m, RecommendResult.emptyDescription) := by
  simp [recommend_closure_code_view, hd]

theorem recommend_no_candidates (m : ModelData) (disk : Option ModelData)
    (catalog : List CodigoCierre) (req : Request)
    (hd : req.description ≠ "")
    (hp : candidatePairs m req.application_id = []) :
    recommend_closure_code_view (some m) disk catalog (some req) =
      (some m, RecommendResult.noCandidates) := by
  simp [recommend_closure_code_view, hd, hp]

/-- Any member of the result list of a served request comes from a selected
index and a live catalog row. -/
theorem mem_resultList_recommend {m : ModelData} {disk : Option ModelData}
    {catalog : List CodigoCierre} {req : Request} {s : Sugerencia}
    (hs : s ∈ resultList
      (recommend_closure_code_view (some m) disk catalog (some req)).2) :
    ∃ idx ∈ topIndices (simScores m req.application_id req.description),
      ∃ c ∈ catalog,
        c.id = ((candidatePairs m req.application_id).map Prod.snd).getD idx 0 ∧
        s = { id := c.id
              codigo_cierre := c.cod_cierre
              descripcion := c.desc_cod_cierre
              raw_score :=
                (simScores m req.application_id req.description).getD idx 0
              accion_recomendada :=
                if SIMILARITY_THRESHOLD ≤
                    (simScores m req.application_id req.description).getD idx 0
                then "use_suggestion" else "review"
              mensaje :=
                if SIMILARITY_THRESHOLD ≤
                    (simScores m req.application_id req.description).getD idx 0
                then "Alta coincidencia" else "Coincidencia baja" } := by
  by_cases hd : req.description = ""
  · rw [recommend_empty_desc m disk catalog req hd] at hs
    simp [resultList] at hs
  by_cases hp : candidatePairs m req.application_id = []
  · rw [recommend_no_candidates m disk catalog req hd hp] at hs
    simp [resultList] at hs
  rw [recommend_run m disk catalog req hd hp] at hs
  exact mem_sugerencias hs

/-- C1 amended: application-scope filtering is exact for every query whose
supplied `application_id` is truthy (non-zero): (1) every returned
suggestion's app-id-set is empty or contains the id — so a code whose
app-id-set is non-empty and lacks the id never appears; (2) every row whose
app-id-set is empty or contains the id remains a candidate; (3) with no
`application_id` supplied, every row is a candidate. -/
theorem c1_scope_filtering_exact_for_truthy :
    (∀ (m : ModelData) (disk : Option ModelData) (catalog : List CodigoCierre)
       (desc : String) (a : ℤ), a ≠ 0 →
       ∀ s ∈ resultList (recommend_closure_code_view (some m) disk catalog
           (some { description := desc, application_id := some a })).2,
         appListOf m s.id = [] ∨ a ∈ appListOf m s.id) ∧
    (∀ (m : ModelData) (a : ℤ), a ≠ 0 →
       ∀ p ∈ m.code_ids.enum,
         appListOf m p.2 = [] ∨ a ∈ appListOf m p.2 →
         p ∈ candidatePairs m (some a)) ∧
    (∀ m : ModelData, candidatePairs m none = m.code_ids.enum) := by
  refine ⟨?_, ?_, fun m => rfl⟩
  · intro m disk catalog desc a ha s hs
    rcases mem_resultList_recommend hs with ⟨idx, hidx, c, hc, hcid, hsx⟩
    have hlt : idx < (simScores m (some a) desc).length :=
      topIndices_lt _ idx hidx
    rw [length_simScores] at hlt
    have hlt2 : idx < ((candidatePairs m (some a)).map Prod.snd).length := by
      simpa using hlt
    have hmem : ((candidatePairs m (some a)).map Prod.snd).getD idx 0 ∈
        (candidatePairs m (some a)).map Prod.snd := by
      rw [List.getD_eq_getElem?_getD, List.getElem?_eq_getElem hlt2]
      exact List.getElem_mem hlt2
    rcases List.mem_map.mp hmem with ⟨p, hpmem, hpx⟩
    have happ := candidatePairs_scoped m ha hpmem
    have hsid : s.id = c.id := by rw [hsx]
    rw [hsid, hcid, ← hpx]
    exact happ
  · intro m a ha p hp hpred
    by_cases hmap : m.code_to_app_map = []
    · simp [candidatePairs, hmap, hp]
    · simp only [candidatePairs, if_pos (And.intro ha hmap)]
      exact List.mem_filter.mpr ⟨hp, decide_eq_true hpred⟩

/-- Artifact and catalog for the C1 witness: code 5 scoped to application 7,
code 6 unscoped. -/
def modelC1w : ModelData :=
  { transform := fun _ => [1, 0]
    tfidf_matrix := [[1, 0], [0, 1]]
    code_ids := [6, 5]
    code_to_app_map := [(5, [7]), (6, [])] }

def catalogC1w : List CodigoCierre :=
  [{ id := 6, cod_cierre := "C6", desc_cod_cierre := "D6", causa_cierre := "X",
     aplicacion := none },
   { id := 5, cod_cierre := "C5", desc_cod_cierre := "D5", causa_cierre := "Y",
     aplicacion := some 7 }]

theorem c1_scope_filtering_witness :
    (∀ s ∈ resultList (recommend_closure_code_view (some modelC1w) none
        catalogC1w
        (some { description := "x", application_id := some 9 })).2,
      appListOf modelC1w s.id = [] ∨ (9 : ℤ) ∈ appListOf modelC1w s.id) ∧
    (0, 6) ∈ candidatePairs modelC1w (some 9) ∧
    candidatePairs modelC1w none = modelC1w.code_ids.enum :=
  ⟨c1_scope_filtering_exact_for_truthy.1 modelC1w none catalogC1w "x" 9
      (by decide),
   c1_scope_filtering_exact_for_truthy.2.1 modelC1w 9 (by decide) (0, 6)
      (by decide) (by decide),
   c1_scope_filtering_exact_for_truthy.2.2 modelC1w⟩

/-- C9: a successful build produces exactly one training document per closure
code: the identifier sequence is the catalog's ids in order, the matrix has
one row per identifier, and a code with no associated incidents still gets a
document from its own description and cause alone. -/
theorem c9_one_document_per_code :
    ∀ (catalog : List CodigoCierre) (incidents : List Incidencia)
      (fit : List String → (String → List ℚ)),
      catalog ≠ [] →
      ∃ m, (build_and_save_similarity_model catalog incidents fit).1 = some m ∧
        m.code_ids = catalog.map CodigoCierre.id ∧
        m.code_ids.length = catalog.length ∧
        m.tfidf_matrix.length = m.code_ids.length ∧
        m.tfidf_matrix =
          (catalog.map (corpusEntry incidents)).map
            (fit (catalog.map (corpusEntry incidents))) ∧
        ∀ c ∈ catalog,
          incidents.filter (fun i => i.codigo_cierre == c.id) = [] →
          corpusEntry incidents c = normalizar_texto (textoBase c ++ " ") := by
  intro catalog incidents fit hne
  have h : (build_and_save_similarity_model catalog incidents fit).1 =
      some { transform := fit (catalog.map (corpusEntry incidents))
             tfidf_matrix :=
               (catalog.map (corpusEntry incidents)).map
                 (fit (catalog.map (corpusEntry incidents)))
             code_ids := catalog.map CodigoCierre.id
             code_to_app_map := catalog.map fun c =>
               (c.id, match c.aplicacion with
                      | some a => [(a : ℤ)]
                      | none => []) } := by
    simp only [build_and_save_similarity_model, if_neg hne]
  refine ⟨_, h, rfl, by simp, by simp, rfl, ?_⟩
  intro c _ hfilt
  simp only [corpusEntry, textoHistorial, incidenciasDe, hfilt]
  rw [show List.insertionSort (fun a b : Incidencia =>
    b.fecha_apertura ≤ a.fecha_apertura) [] = [] from rfl]
  rw [show (List.take 50 ([] : List Incidencia)) = [] from rfl]
  rw [List.map_nil]
  rw [show String.intercalate " " ([] : List String) = "" from rfl]
  rw [String.append_empty]

theorem sugerenciaFor_eq_some {catalog : List CodigoCierre} {sims : List ℚ}
    {ids : List Nat} {idx : Nat} {c : CodigoCierre}
    (hc : catalog.find? (fun x => x.id == ids.getD idx 0) = some c) :
    sugerenciaFor catalog sims ids idx =
      some { id := c.id
             codigo_cierre := c.cod_cierre
             descripcion := c.desc_cod_cierre
             raw_score := sims.getD idx 0
             accion_recomendada :=
               if SIMILARITY_THRESHOLD ≤ sims.getD idx 0 then "use_suggestion"
               else "review"
             mensaje :=
               if SIMILARITY_THRESHOLD ≤ sims.getD idx 0 then "Alta coincidencia"
               else "Coincidencia baja" } := by
  simp only [sugerenciaFor]
  rw [hc]

theorem sugerenciaFor_eq_none {catalog : List CodigoCierre} {sims : List ℚ}
    {ids : List Nat} {idx : Nat}
    (hc : catalog.find? (fun x => x.id == ids.getD idx 0) = none) :
    sugerenciaFor catalog sims ids idx = none := by
  simp only [sugerenciaFor]
  rw [hc]

theorem simScores_all_zero {m : ModelData} {aid : Option ℤ} {desc : String}
    (hq : ∀ x ∈ m.transform (normalizar_texto desc), x = 0) :
    ∀ x ∈ simScores m aid desc, x = 0 := by
  intro x hx
  simp only [simScores, cosineSimilarities] at hx
  rcases List.mem_map.mp hx with ⟨row, _, hrow⟩
  rw [← hrow]
  exact dotProduct_zero hq row

/-- C5: a query sharing no vocabulary with the corpus (zero projected vector)
is not an error: the view succeeds, every returned score is exactly 0, every
action is "review", and (with all candidate codes still in the catalog) the
result list has length `min 3 (number of candidates)`. -/
theorem c5_zero_vector_query_graceful :
    ∀ (m : ModelData) (disk : Option ModelData) (catalog : List CodigoCierre)
      (desc : String) (aid : Option ℤ),
      desc ≠ "" →
      (∀ x ∈ m.transform (normalizar_texto desc), x = 0) →
      candidatePairs m aid ≠ [] →
      (∀ cid ∈ m.code_ids, (catalog.find? fun c => c.id == cid).isSome) →
      ∃ l, (recommend_closure_code_view (some m) disk catalog
            (some { description := desc, application_id := aid })).2 =
          RecommendResult.success l ∧
        l.length = min 3 (candidatePairs m aid).length ∧
        ∀ s ∈ l, s.raw_score = 0 ∧ s.accion_recomendada = "review" := by
  intro m disk catalog desc aid hd hq hp hcov
  rw [recommend_run m disk catalog { description := desc, application_id := aid }
    hd hp]
  refine ⟨_, rfl, ?_, ?_⟩
  · rw [length_filterMap_of_isSome, length_topIndices, length_simScores]
    intro idx hidx
    have hlt : idx < (simScores m aid desc).length := topIndices_lt _ idx hidx
    rw [length_simScores] at hlt
    have hlt2 : idx < ((candidatePairs m aid).map Prod.snd).length := by
      simpa using hlt
    rcases Option.isSome_iff_exists.mp (hcov _ (ids_getD_mem m aid hlt2)) with
      ⟨c, hc⟩
    rw [sugerenciaFor_eq_some hc]
    rfl
  · intro s hs
    rcases mem_sugerencias hs with ⟨idx, hidx, c, _, _, hsx⟩
    have hlt : idx < (simScores m aid desc).length := topIndices_lt _ idx hidx
    have hzero : (simScores m aid desc).getD idx 0 = 0 := by
      apply simScores_all_zero hq
      rw [List.getD_eq_getElem?_getD, List.getElem?_eq_getElem hlt]
      exact List.getElem_mem hlt
    have hth : ¬ (SIMILARITY_THRESHOLD ≤ (simScores m aid desc).getD idx 0) := by
      rw [hzero, SIMILARITY_THRESHOLD]
      norm_num
    constructor
    · rw [hsx]
      exact hzero
    · rw [hsx]
      simp only [if_neg hth]

/-- Artifact and catalog for the C5 witness: two unscoped codes; the
transform sends every query to the zero vector. -/
def modelC5 : ModelData :=
  { transform := fun _ => [0, 0]
    tfidf_matrix := [[1, 0], [0, 1]]
    code_ids := [1, 2]
    code_to_app_map := [] }

def catalogC5 : List CodigoCierre :=
  [{ id := 1, cod_cierre := "A", desc_cod_cierre := "DA", causa_cierre := "",
     aplicacion := none },
   { id := 2, cod_cierre := "B", desc_cod_cierre := "DB", causa_cierre := "",
     aplicacion := none }]

unseal Rat.mul Rat.add Rat.inv in
theorem c5_zero_vector_witness :
    ∃ l, (recommend_closure_code_view (some modelC5) none catalogC5
          (some { description := "zzz", application_id := none })).2 =
        RecommendResult.success l ∧
      l.length = min 3 (candidatePairs modelC5 none).length ∧
      ∀ s ∈ l, s.raw_score = 0 ∧ s.accion_recomendada = "review" :=
  c5_zero_vector_query_graceful modelC5 none catalogC5 "zzz" none
    (by decide) (by decide) (by decide) (by decide)

/-- C8: stale top-ranked references never fail a served request: the view
still answers success, every returned suggestion corresponds to a code that
is (still) in the catalog, and if every selected code id has disappeared the
response is a valid success with an empty list. -/
theorem c8_stale_reference_skipped :
    ∀ (m : ModelData) (disk : Option ModelData) (catalog : List CodigoCierre)
      (desc : String) (aid : Option ℤ),
      desc ≠ "" →
      candidatePairs m aid ≠ [] →
      ∃ l, (recommend_closure_code_view (some m) disk catalog
            (some { description := desc, application_id := aid })).2 =
          RecommendResult.success l ∧
        (∀ s ∈ l, ∃ c ∈ catalog, c.id = s.id) ∧
        ((∀ cid ∈ m.code_ids, catalog.find? (fun c => c.id == cid) = none) →
          l = []) := by
  intro m disk catalog desc aid hd hp
  rw [recommend_run m disk catalog { description := desc, application_id := aid }
    hd hp]
  refine ⟨_, rfl, ?_, ?_⟩
  · intro s hs
    rcases mem_sugerencias hs with ⟨idx, _, c, hc, _, hsx⟩
    refine ⟨c, hc, ?_⟩
    rw [hsx]
  · intro hall
    rw [List.filterMap_eq_nil_iff]
    intro idx hidx
    have hlt : idx < (simScores m aid desc).length := topIndices_lt _ idx hidx
    rw [length_simScores] at hlt
    have hlt2 : idx < ((candidatePairs m aid).map Prod.snd).length := by
      simpa using hlt
    exact sugerenciaFor_eq_none (hall _ (ids_getD_mem m aid hlt2))

/-- Artifact for the C8 witness: the only code id in the model is absent from
the (empty) catalog, so all selected results are stale. -/
def modelC8 : ModelData :=
  { transform := fun _ => [1]
    tfidf_matrix := [[1]]
    code_ids := [9]
    code_to_app_map := [] }

unseal Rat.mul Rat.add Rat.inv in
theorem c8_stale_reference_witness :
    ∃ l, (recommend_closure_code_view (some modelC8) none []
          (some { description := "x", application_id := none })).2 =
        RecommendResult.success l ∧
      (∀ s ∈ l, ∃ c ∈ ([] : List CodigoCierre), c.id = s.id) ∧
      ((∀ cid ∈ modelC8.code_ids,
          ([] : List CodigoCierre).find? (fun c => c.id == cid) = none) →
        l = []) :=
  c8_stale_reference_skipped modelC8 none [] "x" none (by decide) (by decide)

/-- Catalog for the C9 witness: a single closure code with no incidents. -/
def catalogC9 : List CodigoCierre :=
  [{ id := 1, cod_cierre := "A", desc_cod_cierre := "password reset",
     causa_cierre := "user", aplicacion := none }]

theorem c9_one_document_witness :
    ∃ m, (build_and_save_similarity_model catalogC9 []
        (fun _ _ => [1])).1 = some m ∧
      m.code_ids = catalogC9.map CodigoCierre.id ∧
      m.code_ids.length = catalogC9.length ∧
      m.tfidf_matrix.length = m.code_ids.length ∧
      m.tfidf_matrix =
        (catalogC9.map (corpusEntry [])).map
          ((fun _ _ => [1]) (catalogC9.map (corpusEntry []))) ∧
      ∀ c ∈ catalogC9,
        ([] : List Incidencia).filter (fun i => i.codigo_cierre == c.id) = [] →
        corpusEntry [] c = normalizar_texto (textoBase c ++ " ") :=
  c9_one_document_per_code catalogC9 [] (fun _ _ => [1]) (by decide)

theorem range_map_getD (xs : List ℚ) :
    (List.range xs.length).map (fun i => xs.getD i 0) = xs := by
  apply List.ext_getElem
  · simp
  · intro n h1 h2
    simp [List.getD_eq_getElem?_getD, List.getElem?_eq_getElem h2]

theorem argsortAsc_map_getD (xs : List ℚ) :
    (argsortAsc xs).map (fun i => xs.getD i 0) =
      xs.insertionSort (fun a b => a ≤ b) := by
  rw [argsortAsc,
    List.map_insertionSort (fun i j => xs.getD i 0 ≤ xs.getD j 0)
      (fun a b : ℚ => a ≤ b) (fun i => xs.getD i 0) (List.range xs.length)
      (fun a _ b _ => Iff.rfl),
    range_map_getD]

theorem insertionSort_ge_eq_reverse (xs : List ℚ) :
    xs.insertionSort (fun a b => b ≤ a) =
      (xs.insertionSort (fun a b => a ≤ b)).reverse := by
  haveI ht : IsTotal ℚ fun a b => b ≤ a := ⟨fun a b => le_total b a⟩
  haveI htr : IsTrans ℚ fun a b => b ≤ a := ⟨fun a b c h1 h2 => le_trans h2 h1⟩
  haveI has : IsAntisymm ℚ fun a b => b ≤ a :=
    ⟨fun a b h1 h2 => le_antisymm h2 h1⟩
  have hp : List.Perm (xs.insertionSort fun a b => b ≤ a)
      ((xs.insertionSort fun a b => a ≤ b).reverse) :=
    (List.perm_insertionSort _ xs).trans
      ((List.reverse_perm _).trans (List.perm_insertionSort _ xs)).symm
  have hs1 : (xs.insertionSort (fun a b => b ≤ a)).Sorted fun a b => b ≤ a :=
    List.sorted_insertionSort _ xs
  have hs2 : ((xs.insertionSort (fun a b => a ≤ b)).reverse).Sorted
      fun a b => b ≤ a := by
    rw [List.Sorted, List.pairwise_reverse]
    exact List.sorted_insertionSort _ xs
  exact List.eq_of_perm_of_sorted hp hs1 hs2

theorem topIndices_map_getD (xs : List ℚ) :
    (topIndices xs).map (fun i => xs.getD i 0) =
      (xs.insertionSort (fun a b => b ≤ a)).take 3 := by
  have hlen : (argsortAsc xs).length = xs.length := by
    simp [argsortAsc]
  simp only [topIndices]
  rw [List.map_reverse, List.map_drop, argsortAsc_map_getD,
    insertionSort_ge_eq_reverse, List.reverse_drop]
  rw [List.length_insertionSort]
  rcases Nat.le_total xs.length 3 with h | h
  · rw [Nat.min_eq_right h]
    rw [Nat.sub_self, Nat.sub_zero]
    rw [List.take_of_length_le (by simp), List.take_of_length_le (by simp [h])]
  · rw [Nat.min_eq_left h]
    congr 1
    omega

theorem filterMap_map_raw_score {catalog : List CodigoCierre} (sims : List ℚ)
    {ids : List Nat} (top : List Nat)
    (h : ∀ idx ∈ top, (catalog.find? fun c => c.id == ids.getD idx 0).isSome) :
    (top.filterMap (sugerenciaFor catalog sims ids)).map Sugerencia.raw_score =
      top.map fun i => sims.getD i 0 := by
  induction top with
  | nil => rfl
  | cons x xs ih =>
    rcases Option.isSome_iff_exists.mp (h x (List.mem_cons_self x xs)) with
      ⟨c, hc⟩
    rw [List.filterMap_cons_some (sugerenciaFor_eq_some hc), List.map_cons,
      List.map_cons, ih fun z hz => h z (List.mem_cons_of_mem x hz)]

/-- C6: the view ranks the candidates by cosine similarity descending and
returns exactly the top `min 3 (candidate count)` of them, highest score
first: with every candidate still in the catalog, the returned raw scores are
the first three entries of the descending sort of the candidate score list,
and they are sorted in non-increasing order. -/
theorem c6_ranks_top3_descending :
    ∀ (m : ModelData) (disk : Option ModelData) (catalog : List CodigoCierre)
      (desc : String) (aid : Option ℤ),
      desc ≠ "" →
      candidatePairs m aid ≠ [] →
      (∀ cid ∈ m.code_ids, (catalog.find? fun c => c.id == cid).isSome) →
      ∃ l, (recommend_closure_code_view (some m) disk catalog
            (some { description := desc, application_id := aid })).2 =
          RecommendResult.success l ∧
        l.map Sugerencia.raw_score =
          ((simScores m aid desc).insertionSort fun a b => b ≤ a).take 3 ∧
        l.length = min 3 (candidatePairs m aid).length ∧
        (l.map Sugerencia.raw_score).Sorted fun a b => b ≤ a := by
  intro m disk catalog desc aid hd hp hcov
  rw [recommend_run m disk catalog { description := desc, application_id := aid }
    hd hp]
  have hsome : ∀ idx ∈ topIndices (simScores m aid desc),
      (catalog.find? fun c =>
        c.id == ((candidatePairs m aid).map Prod.snd).getD idx 0).isSome := by
    intro idx hidx
    have hlt : idx < (simScores m aid desc).length := topIndices_lt _ idx hidx
    rw [length_simScores] at hlt
    have hlt2 : idx < ((candidatePairs m aid).map Prod.snd).length := by
      simpa using hlt
    exact hcov _ (ids_getD_mem m aid hlt2)
  have hscores := filterMap_map_raw_score (simScores m aid desc)
    (topIndices (simScores m aid desc)) hsome
  rw [topIndices_map_getD] at hscores
  refine ⟨_, rfl, hscores, ?_, ?_⟩
  · rw [length_filterMap_of_isSome, length_topIndices, length_simScores]
    intro idx hidx
    rcases Option.isSome_iff_exists.mp (hsome idx hidx) with ⟨c, hc⟩
    rw [sugerenciaFor_eq_some hc]
    rfl
  · rw [hscores]
    haveI ht : IsTotal ℚ fun a b => b ≤ a := ⟨fun a b => le_total b a⟩
    haveI htr : IsTrans ℚ fun a b => b ≤ a := ⟨fun a b c h1 h2 => le_trans h2 h1⟩
    exact List.Pairwise.sublist (List.take_sublist 3 _)
      (List.sorted_insertionSort _ _)

/-- Artifact and catalog for the C6 witness: two codes with distinct scores
(1 and 0). -/
def modelC6 : ModelData :=
  { transform := fun _ => [1, 0]
    tfidf_matrix := [[1, 0], [0, 1]]
    code_ids := [1, 2]
    code_to_app_map := [] }

def catalogC6 : List CodigoCierre :=
  [{ id := 1, cod_cierre := "A", desc_cod_cierre := "DA", causa_cierre := "",
     aplicacion := none },
   { id := 2, cod_cierre := "B", desc_cod_cierre := "DB", causa_cierre := "",
     aplicacion := none }]

unseal Rat.mul Rat.add Rat.inv in
theorem c6_ranks_top3_witness :
    ∃ l, (recommend_closure_code_view (some modelC6) none catalogC6
          (some { description := "x", application_id := none })).2 =
        RecommendResult.success l ∧
      l.map Sugerencia.raw_score =
        ((simScores modelC6 none "x").insertionSort fun a b => b ≤ a).take 3 ∧
      l.length = min 3 (candidatePairs modelC6 none).length ∧
      (l.map Sugerencia.raw_score).Sorted fun a b => b ≤ a :=
  c6_ranks_top3_descending modelC6 none catalogC6 "x" none
    (by decide) (by decide) (by decide)
